import Mathlib

/-!
Shallow embedding of the thingpilot `sara_n2_driver` repository
(`SaraN2Driver.cpp` / `SaraN2Driver.h`, the current v0.2.0 revision) and
proofs about its command serialization, response scanners, reboot
sequencer, timeout discipline and mutex discipline.

Modem interaction is embedded by making every observable effect of an
operation explicit: each `SaraN2` member function becomes a Lean function
from its arguments and an oracle describing the modem's replies (whether a
`recv` pattern matched, and the raw byte stream handed to `getc`) to its
`int` return code plus a trace of events (`lock`/`unlock` on `_smutex`,
`flush`, `send` of a wire command, `set_timeout`).  Byte streams are
`List Nat` (one entry per byte, `0..255`); `_parser->getc()` returning
`-1` on timeout is modelled by the end of the list.
-/

namespace SaraN2

/-- Return codes from the anonymous enum in `SaraN2Driver.h` (v0.2.0). -/
def SARAN2_OK : Int := 0

/-- `FAIL_AT` return code. -/
def FAIL_AT : Int := 1

/-- `FAIL_SELECT_PROFILE` return code. -/
def FAIL_SELECT_PROFILE : Int := 2

/-- `INVALID_PROFILE` return code. -/
def INVALID_PROFILE : Int := 3

/-- `FAIL_LOAD_PROFILE` return code. -/
def FAIL_LOAD_PROFILE : Int := 4

/-- `FAIL_SAVE_PROFILE` return code. -/
def FAIL_SAVE_PROFILE : Int := 5

/-- `FAIL_SET_PROFILE_VALIDITY` return code. -/
def FAIL_SET_PROFILE_VALIDITY : Int := 6

/-- `VALUE_OUT_OF_BOUNDS` return code. -/
def VALUE_OUT_OF_BOUNDS : Int := 7

/-- `FAIL_SET_COAP_IP_PORT` return code. -/
def FAIL_SET_COAP_IP_PORT : Int := 8

/-- `FAIL_SET_COAP_URI` return code. -/
def FAIL_SET_COAP_URI : Int := 9

/-- `URI_TOO_LONG` return code. -/
def URI_TOO_LONG : Int := 10

/-- `FAIL_ADD_URI_HOST_PDU` return code. -/
def FAIL_ADD_URI_HOST_PDU : Int := 11

/-- `FAIL_ADD_URI_PORT_PDU` return code. -/
def FAIL_ADD_URI_PORT_PDU : Int := 12

/-- `FAIL_ADD_URI_PATH_PDU` return code. -/
def FAIL_ADD_URI_PATH_PDU : Int := 13

/-- `FAIL_ADD_URI_QUERY_PDU` return code. -/
def FAIL_ADD_URI_QUERY_PDU : Int := 14

/-- `FAIL_REMOVE_URI_HOST_PDU` return code. -/
def FAIL_REMOVE_URI_HOST_PDU : Int := 15

/-- `FAIL_REMOVE_URI_PORT_PDU` return code. -/
def FAIL_REMOVE_URI_PORT_PDU : Int := 16

/-- `FAIL_REMOVE_URI_PATH_PDU` return code. -/
def FAIL_REMOVE_URI_PATH_PDU : Int := 17

/-- `FAIL_REMOVE_URI_QUERY_PDU` return code. -/
def FAIL_REMOVE_URI_QUERY_PDU : Int := 18

/-- `FAIL_SELECT_COAP_AT_INTERFACE` return code. -/
def FAIL_SELECT_COAP_AT_INTERFACE : Int := 19

/-- `FAIL_REBOOT` return code. -/
def FAIL_REBOOT : Int := 20

/-- `FAIL_CONFIGURE_UE` return code. -/
def FAIL_CONFIGURE_UE : Int := 21

/-- `FAIL_START_GET_REQUEST` return code. -/
def FAIL_START_GET_REQUEST : Int := 22

/-- `FAIL_START_DELETE_REQUEST` return code. -/
def FAIL_START_DELETE_REQUEST : Int := 23

/-- `FAIL_START_PUT_REQUEST` return code. -/
def FAIL_START_PUT_REQUEST : Int := 24

/-- `FAIL_START_POST_REQUEST` return code. -/
def FAIL_START_POST_REQUEST : Int := 25

/-- `FAIL_PARSE_RESPONSE` return code. -/
def FAIL_PARSE_RESPONSE : Int := 26

/-- `FAIL_GET_CSCON` return code. -/
def FAIL_GET_CSCON : Int := 27

/-- `FAIL_GET_CEREG` return code. -/
def FAIL_GET_CEREG : Int := 28

/-- `FAIL_ENABLE_PSM` return code. -/
def FAIL_ENABLE_PSM : Int := 29

/-- `FAIL_DISABLE_PSM` return code. -/
def FAIL_DISABLE_PSM : Int := 30

/-- `FAIL_QUERY_PSM` return code. -/
def FAIL_QUERY_PSM : Int := 31

/-- `#define NUMBER_OF_PROFILES 3` from `SaraN2Driver.h`.  Note that this
macro is the largest valid profile index, not the number of profile slots:
the header enumerates the four profiles `COAP_PROFILE_0 .. COAP_PROFILE_3`. -/
def NUMBER_OF_PROFILES : Nat := 3

/-- The number of CoAP profile slots of the modem:
`COAP_PROFILE_0 .. COAP_PROFILE_3` from the header, i.e. indices
`0 .. NUMBER_OF_PROFILES` inclusive. -/
def profile_count : Nat := NUMBER_OF_PROFILES + 1

/-- `config_functions[7]` lookup table from `SaraN2Driver.h`. -/
def config_functions : List String :=
  ["AUTOCONNECT", "CR_0354_0338_SCRAMBLING", "CR_0859_SI_AVOID",
   "COMBINE_ATTACH", "CELL_RESELECTION", "ENABLE_BIP",
   "NAS_SIM_POWER_SAVING_ENABLE"]

/-- `config_values[2]` lookup table from `SaraN2Driver.h`. -/
def config_values : List String := ["TRUE", "FALSE"]

/-- Wire commands produced by the driver, one constructor per distinct
`_parser->send` format string in `SaraN2Driver.cpp`.  Table lookups that may
be out of bounds in the C++ source (`configure_ue`) are carried as
`Option String`, `none` marking an out-of-range index. -/
inductive Cmd where
  | AT : Cmd
  | UCOAP (op : Nat) (arg : Nat) : Cmd
  | UCOAP_IP_PORT (ipv4 : String) (port : Nat) : Cmd
  | UCOAP_URI (uri : String) : Cmd
  | UCOAP_PDU (opt : Nat) (flag : Nat) : Cmd
  | USELCP (n : Nat) : Cmd
  | UCOAPC (n : Nat) : Cmd
  | UCOAPC_DATA (n : Nat) (data : String) (ident : Int) : Cmd
  | NRB : Cmd
  | CPSMS (n : Nat) : Cmd
  | CPSMS_Q : Cmd
  | NCONFIG (f : Option String) (v : Option String) : Cmd
  | CEREG_Q : Cmd
  | CSCON_Q : Cmd
  | NUESTATS : Cmd
  | MISC (tag : Nat) : Cmd
deriving DecidableEq, Repr

/-- Observable events of one driver operation: `_smutex` acquire/release,
`_parser->flush()`, `_parser->send(...)` of a wire command, and
`_parser->set_timeout(ms)`. -/
inductive Event where
  | lock : Event
  | unlock : Event
  | flush : Event
  | send (c : Cmd) : Event
  | set_timeout (ms : Nat) : Event
deriving DecidableEq, Repr

/-- Result of one driver operation: the `int` return code and the trace of
events it performed, in program order. -/
structure OpResult where
  ret : Int
  trace : List Event
deriving DecidableEq, Repr

/-- Digit-accumulation part of C `atoi`: consume decimal digits, stop at the
first non-digit byte. -/
def atoiDigits : List Nat → Nat → Nat
  | [], acc => acc
  | b :: rest, acc =>
      if 48 ≤ b ∧ b ≤ 57 then atoiDigits rest (acc * 10 + (b - 48)) else acc

/-- C `atoi` on a byte buffer: skip leading whitespace, optional sign, then
decimal digits up to the first non-digit (a NUL byte in the buffer in
particular stops the parse). -/
def atoi (l : List Nat) : Int :=
  match l.dropWhile (fun b => b = 32 ∨ (9 ≤ b ∧ b ≤ 13)) with
  | 45 :: rest => -(atoiDigits rest 0 : Int)
  | 43 :: rest => (atoiDigits rest 0 : Int)
  | rest => (atoiDigits rest 0 : Int)

/-- Scanner state of `SaraN2::parse_coap_response` (lines 449-513):
`buffer_index`, `capture_byte`, `more_block_byte` exactly as in the source;
`writes` records every single-byte `memcpy` into the caller's `recv_data`
as an `(index, byte)` pair in program order; `more_block` is the by-reference
out-parameter. -/
structure CoapScan where
  buffer_index : Nat
  capture_byte : Int
  more_block_byte : Int
  writes : List (Nat × Nat)
  more_block : Int
deriving DecidableEq, Repr

/-- The `for(int i = 0; i < 520; i++)` byte loop of `parse_coap_response`:
`fuel` is the remaining iteration budget (`520 - i`), `i` the loop counter;
the head of `stream` is the next `getc` result and an empty `stream` is
`getc() == -1` (break).  Byte 34 (`"`) opens capture (`capture_byte = i+1`,
`buffer_index = 0`) or closes it (`more_block_byte = i+2`,
`capture_byte = -2`); otherwise a byte at the position `capture_byte` is
copied into `recv_data[buffer_index]`, and the byte at `more_block_byte`
is stored into `more_block` followed by `break`. -/
def coap_scan : Nat → Nat → CoapScan → List Nat → CoapScan
  | 0, _, st, _ => st
  | _ + 1, _, st, [] => st
  | fuel + 1, i, st, b :: rest =>
      if b = 34 then
        if st.capture_byte = -1 then
          coap_scan fuel (i + 1)
            { st with capture_byte := (i : Int) + 1, buffer_index := 0 } rest
        else
          coap_scan fuel (i + 1)
            { st with more_block_byte := (i : Int) + 2, capture_byte := -2 } rest
      else
        let st1 :=
          if st.capture_byte = (i : Int) then
            { st with writes := st.writes ++ [(st.buffer_index, b)],
                      buffer_index := st.buffer_index + 1,
                      capture_byte := st.capture_byte + 1 }
          else st
        if st1.more_block_byte = (i : Int) then
          { st1 with more_block := b }
        else
          coap_scan fuel (i + 1) st1 rest

/-- Result of `parse_coap_response`: return code, the byte writes into the
caller's `recv_data`, the final values of the by-reference out-parameters
`response_code` and `more_block`, and the trace of `set_timeout` calls. -/
structure ParseOut where
  ret : Int
  writes : List (Nat × Nat)
  response_code : Int
  more_block : Int
  trace : List Event
deriving DecidableEq, Repr

/-- `SaraN2::parse_coap_response` (lines 449-513).  `timeout` is the
`timeout` argument, `token` the oracle for `recv("+UCOAPCD: %d")` (the
matched `%d` status code, or `none` on timeout/mismatch), `stream` the bytes
subsequently available to `getc`, and `response_code0` / `more_block0` the
values of the caller's by-reference variables at entry.  On a token match the
parser timeout is set to 100 and the 520-iteration byte scan runs; both exit
paths restore the timeout to 500 before returning. -/
def parse_coap_response (timeout : Nat) (token : Option Int) (stream : List Nat)
    (response_code0 more_block0 : Int) : ParseOut :=
  match token with
  | some rc =>
      let st := coap_scan 520 0
        { buffer_index := 0, capture_byte := -1, more_block_byte := -1,
          writes := [], more_block := more_block0 } stream
      { ret := SARAN2_OK, writes := st.writes, response_code := rc,
        more_block := st.more_block,
        trace := [Event.set_timeout timeout, Event.set_timeout 100,
                  Event.set_timeout 500] }
  | none =>
      { ret := FAIL_PARSE_RESPONSE, writes := [], response_code := response_code0,
        more_block := more_block0,
        trace := [Event.set_timeout timeout, Event.set_timeout 500] }

/-- Scanner state of `SaraN2::nuestats` (lines 851-910): `capture_byte`,
`buffer_index` and `parameter` as in the source; `buffer` models the 16-byte
field buffer `char buffer[16]` (uninitialized in C; modelled zero-filled, and
an in-model write beyond index 15 leaves `buffer` unchanged since the C
behaviour there is an out-of-bounds store); `bufWrites` records every
attempted single-byte store into `buffer` as `(buffer_index, byte)`;
`dataWrites` records every 4-byte `memcpy(&data[4*parameter], &value, 4)`
as `(parameter, value)`. -/
structure NuScan where
  capture_byte : Int
  buffer : List Nat
  buffer_index : Nat
  parameter : Nat
  bufWrites : List (Nat × Nat)
  dataWrites : List (Nat × Int)
deriving DecidableEq, Repr

/-- The `for(int i = 0; i < 200; i++)` byte loop of `nuestats`: byte 44
(comma) restarts field capture at the next byte; byte 13 (CR) with a
non-empty field buffer parses the buffer with `atoi`, stores the value into
the next record slot and resets capture state; byte 10 (LF) is skipped;
any other byte at position `capture_byte` is appended to the field buffer.
An empty `stream` is `getc() == -1` (break). -/
def nuestats_scan : Nat → Nat → NuScan → List Nat → NuScan
  | 0, _, st, _ => st
  | _ + 1, _, st, [] => st
  | fuel + 1, i, st, b :: rest =>
      if b = 44 then
        nuestats_scan fuel (i + 1)
          { st with capture_byte := (i : Int) + 1, buffer_index := 0 } rest
      else if b = 13 ∧ 0 < st.buffer_index then
        nuestats_scan fuel (i + 1)
          { st with dataWrites := st.dataWrites ++ [(st.parameter, atoi st.buffer)],
                    buffer := List.replicate 16 0,
                    parameter := st.parameter + 1,
                    capture_byte := -1,
                    buffer_index := 0 } rest
      else if b = 10 then
        nuestats_scan fuel (i + 1) st rest
      else
        if st.capture_byte = (i : Int) then
          nuestats_scan fuel (i + 1)
            { st with buffer := st.buffer.set st.buffer_index b,
                      bufWrites := st.bufWrites ++ [(st.buffer_index, b)],
                      buffer_index := st.buffer_index + 1,
                      capture_byte := st.capture_byte + 1 } rest
        else
          nuestats_scan fuel (i + 1) st rest

/-- Result of `nuestats`: return code, final scanner state and event trace. -/
structure NuOut where
  ret : Int
  scan : NuScan
  trace : List Event
deriving DecidableEq, Repr

/-- `SaraN2::nuestats` (lines 851-910): lock, flush, send `AT+NUESTATS`,
lower the timeout to 100, run the 200-iteration byte scan over `stream`,
then unlock `_smutex` and only afterwards restore the timeout to 500;
always returns `SARAN2_OK`. -/
def nuestats (stream : List Nat) : NuOut :=
  let st := nuestats_scan 200 0
    { capture_byte := -1, buffer := List.replicate 16 0, buffer_index := 0,
      parameter := 0, bufWrites := [], dataWrites := [] } stream
  { ret := SARAN2_OK, scan := st,
    trace := [Event.lock, Event.flush, Event.send Cmd.NUESTATS,
              Event.set_timeout 100, Event.unlock, Event.set_timeout 500] }

/-- Shared shape of the simple one-exchange operations of
`SaraN2Driver.cpp`: lock `_smutex`, flush, send command `c`, wait for `OK`
(`ok` is the oracle for `recv("OK")`), unlock on both the failure and the
success path; return `SARAN2_OK` on acknowledgement and the operation's
failure code otherwise. -/
def simple_cmd (c : Cmd) (ok : Bool) (failCode : Int) : OpResult :=
  { ret := if ok then SARAN2_OK else failCode,
    trace := [Event.lock, Event.flush, Event.send c, Event.unlock] }

/-- `SaraN2::at` (lines 46-62). -/
def at_op (ok : Bool) : OpResult :=
  simple_cmd Cmd.AT ok FAIL_AT

/-- `SaraN2::select_profile` (lines 70-91): rejects `profile` greater than
`NUMBER_OF_PROFILES` before any I/O, else sends `AT+UCOAP=3,"<profile>"`. -/
def select_profile (profile : Nat) (ok : Bool) : OpResult :=
  if NUMBER_OF_PROFILES < profile then
    { ret := INVALID_PROFILE, trace := [] }
  else
    simple_cmd (Cmd.UCOAP 3 profile) ok FAIL_SELECT_PROFILE

/-- `SaraN2::load_profile` (lines 99-120): same guard, sends
`AT+UCOAP=5,"<profile>"`. -/
def load_profile (profile : Nat) (ok : Bool) : OpResult :=
  if NUMBER_OF_PROFILES < profile then
    { ret := INVALID_PROFILE, trace := [] }
  else
    simple_cmd (Cmd.UCOAP 5 profile) ok FAIL_LOAD_PROFILE

/-- `SaraN2::save_profile` (lines 128-149): same guard, sends
`AT+UCOAP=6,"<profile>"`. -/
def save_profile (profile : Nat) (ok : Bool) : OpResult :=
  if NUMBER_OF_PROFILES < profile then
    { ret := INVALID_PROFILE, trace := [] }
  else
    simple_cmd (Cmd.UCOAP 6 profile) ok FAIL_SAVE_PROFILE

/-- `SaraN2::set_profile_validity` (lines 158-179): rejects `valid > 1`
before any I/O, else sends `AT+UCOAP=4,"<valid>"`. -/
def set_profile_validity (valid : Nat) (ok : Bool) : OpResult :=
  if 1 < valid then
    { ret := VALUE_OUT_OF_BOUNDS, trace := [] }
  else
    simple_cmd (Cmd.UCOAP 4 valid) ok FAIL_SET_PROFILE_VALIDITY

/-- `SaraN2::set_coap_ip_port` (lines 189-205). -/
def set_coap_ip_port (ipv4 : String) (port : Nat) (ok : Bool) : OpResult :=
  simple_cmd (Cmd.UCOAP_IP_PORT ipv4 port) ok FAIL_SET_COAP_IP_PORT

/-- `SaraN2::set_coap_uri` (lines 215-236): rejects `uri_length > 200`
before any I/O, else sends `AT+UCOAP=1,"<uri>"`. -/
def set_coap_uri (uri : String) (uri_length : Nat) (ok : Bool) : OpResult :=
  if 200 < uri_length then
    { ret := URI_TOO_LONG, trace := [] }
  else
    simple_cmd (Cmd.UCOAP_URI uri) ok FAIL_SET_COAP_URI

/-- `SaraN2::pdu_header_add_uri_host` (lines 242-258). -/
def pdu_header_add_uri_host (ok : Bool) : OpResult :=
  simple_cmd (Cmd.UCOAP_PDU 0 1) ok FAIL_ADD_URI_HOST_PDU

/-- `SaraN2::pdu_header_add_uri_port` (lines 264-280). -/
def pdu_header_add_uri_port (ok : Bool) : OpResult :=
  simple_cmd (Cmd.UCOAP_PDU 1 1) ok FAIL_ADD_URI_PORT_PDU

/-- `SaraN2::pdu_header_add_uri_path` (lines 286-302). -/
def pdu_header_add_uri_path (ok : Bool) : OpResult :=
  simple_cmd (Cmd.UCOAP_PDU 2 1) ok FAIL_ADD_URI_PATH_PDU

/-- `SaraN2::pdu_header_add_uri_query` (lines 308-324). -/
def pdu_header_add_uri_query (ok : Bool) : OpResult :=
  simple_cmd (Cmd.UCOAP_PDU 3 1) ok FAIL_ADD_URI_QUERY_PDU

/-- `SaraN2::pdu_header_remove_uri_host` (lines 330-346). -/
def pdu_header_remove_uri_host (ok : Bool) : OpResult :=
  simple_cmd (Cmd.UCOAP_PDU 0 0) ok FAIL_REMOVE_URI_HOST_PDU

/-- `SaraN2::pdu_header_remove_uri_port` (lines 352-368). -/
def pdu_header_remove_uri_port (ok : Bool) : OpResult :=
  simple_cmd (Cmd.UCOAP_PDU 1 0) ok FAIL_REMOVE_URI_PORT_PDU

/-- `SaraN2::pdu_header_remove_uri_path` (lines 374-390). -/
def pdu_header_remove_uri_path (ok : Bool) : OpResult :=
  simple_cmd (Cmd.UCOAP_PDU 2 0) ok FAIL_REMOVE_URI_PATH_PDU

/-- `SaraN2::pdu_header_remove_uri_query` (lines 396-412). -/
def pdu_header_remove_uri_query (ok : Bool) : OpResult :=
  simple_cmd (Cmd.UCOAP_PDU 3 0) ok FAIL_REMOVE_URI_QUERY_PDU

/-- `SaraN2::select_coap_at_interface` (lines 420-436). -/
def select_coap_at_interface (ok : Bool) : OpResult :=
  simple_cmd (Cmd.USELCP 1) ok FAIL_SELECT_COAP_AT_INTERFACE

/-- `SaraN2::coap_get` (lines 524-547): lock, flush, send `AT+UCOAPC=1`;
on the `OK` acknowledgement invoke `parse_coap_response` (header default
timeout 10000, local `more_block = -1`) and unlock on every path. -/
def coap_get (ok : Bool) (token : Option Int) (stream : List Nat)
    (response_code0 : Int) : OpResult :=
  if ok then
    let p := parse_coap_response 10000 token stream response_code0 (-1)
    { ret := if p.ret ≠ SARAN2_OK then FAIL_PARSE_RESPONSE else SARAN2_OK,
      trace := [Event.lock, Event.flush, Event.send (Cmd.UCOAPC 1)]
               ++ p.trace ++ [Event.unlock] }
  else
    { ret := FAIL_START_GET_REQUEST,
      trace := [Event.lock, Event.flush, Event.send (Cmd.UCOAPC 1),
                Event.unlock] }

/-- `SaraN2::coap_delete` (lines 558-581): as `coap_get` with `AT+UCOAPC=2`. -/
def coap_delete (ok : Bool) (token : Option Int) (stream : List Nat)
    (response_code0 : Int) : OpResult :=
  if ok then
    let p := parse_coap_response 10000 token stream response_code0 (-1)
    { ret := if p.ret ≠ SARAN2_OK then FAIL_PARSE_RESPONSE else SARAN2_OK,
      trace := [Event.lock, Event.flush, Event.send (Cmd.UCOAPC 2)]
               ++ p.trace ++ [Event.unlock] }
  else
    { ret := FAIL_START_DELETE_REQUEST,
      trace := [Event.lock, Event.flush, Event.send (Cmd.UCOAPC 2),
                Event.unlock] }

/-- `SaraN2::coap_put` (lines 597-620): sends
`AT+UCOAPC=3,"<send_data>",<data_indentifier>` then parses the response. -/
def coap_put (send_data : String) (data_indentifier : Int) (ok : Bool)
    (token : Option Int) (stream : List Nat) (response_code0 : Int) : OpResult :=
  if ok then
    let p := parse_coap_response 10000 token stream response_code0 (-1)
    { ret := if p.ret ≠ SARAN2_OK then FAIL_PARSE_RESPONSE else SARAN2_OK,
      trace := [Event.lock, Event.flush,
                Event.send (Cmd.UCOAPC_DATA 3 send_data data_indentifier)]
               ++ p.trace ++ [Event.unlock] }
  else
    { ret := FAIL_START_PUT_REQUEST,
      trace := [Event.lock, Event.flush,
                Event.send (Cmd.UCOAPC_DATA 3 send_data data_indentifier),
                Event.unlock] }

/-- `SaraN2::coap_post` (lines 636-659): sends
`AT+UCOAPC=4,"<send_data>",<data_indentifier>` then parses the response. -/
def coap_post (send_data : String) (data_indentifier : Int) (ok : Bool)
    (token : Option Int) (stream : List Nat) (response_code0 : Int) : OpResult :=
  if ok then
    let p := parse_coap_response 10000 token stream response_code0 (-1)
    { ret := if p.ret ≠ SARAN2_OK then FAIL_PARSE_RESPONSE else SARAN2_OK,
      trace := [Event.lock, Event.flush,
                Event.send (Cmd.UCOAPC_DATA 4 send_data data_indentifier)]
               ++ p.trace ++ [Event.unlock] }
  else
    { ret := FAIL_START_POST_REQUEST,
      trace := [Event.lock, Event.flush,
                Event.send (Cmd.UCOAPC_DATA 4 send_data data_indentifier),
                Event.unlock] }

/-- `SaraN2::reboot_module` (lines 666-695): lock, flush, send `AT+NRB`;
`ack` is the oracle for `recv("REBOOTING")`, `banner` for `recv("u-blox")`
and `ready` for the subsequent `recv("OK")` (short-circuited, so `ready`
is only consulted when `banner` holds).  On acknowledgement the timeout is
raised to 10000 and restored to 500 before unlocking on both inner paths;
without acknowledgement the timeout is never touched. -/
def reboot_module (ack banner ready : Bool) : OpResult :=
  if ack then
    if banner && ready then
      { ret := SARAN2_OK,
        trace := [Event.lock, Event.flush, Event.send Cmd.NRB,
                  Event.set_timeout 10000, Event.set_timeout 500,
                  Event.unlock] }
    else
      { ret := FAIL_REBOOT,
        trace := [Event.lock, Event.flush, Event.send Cmd.NRB,
                  Event.set_timeout 10000, Event.set_timeout 500,
                  Event.unlock] }
  else
    { ret := FAIL_REBOOT,
      trace := [Event.lock, Event.flush, Event.send Cmd.NRB, Event.unlock] }

/-- `SaraN2::enable_power_save_mode` (lines 701-717). -/
def enable_power_save_mode (ok : Bool) : OpResult :=
  simple_cmd (Cmd.CPSMS 1) ok FAIL_ENABLE_PSM

/-- `SaraN2::disable_power_save_mode` (lines 723-739). -/
def disable_power_save_mode (ok : Bool) : OpResult :=
  simple_cmd (Cmd.CPSMS 0) ok FAIL_DISABLE_PSM

/-- `SaraN2::query_power_save_mode` (lines 749-765): `ok` is the oracle for
`recv("+CPSMS: %d") && recv("OK")`; the by-reference `power_save_mode`
out-parameter is not needed by any claim and is not modelled. -/
def query_power_save_mode (ok : Bool) : OpResult :=
  simple_cmd Cmd.CPSMS_Q ok FAIL_QUERY_PSM

/-- `SaraN2::configure_ue` (lines 774-790): locks, flushes and sends
`AT+NCONFIG="<config_functions[function]>","<config_values[value]>"`
without any bounds validation of either index; the table lookups are
modelled with `getElem?`, so an out-of-range index appears as `none` in the
sent command (in C++ it is an out-of-bounds array read). -/
def configure_ue (function : Nat) (value : Nat) (ok : Bool) : OpResult :=
  simple_cmd (Cmd.NCONFIG config_functions[function]? config_values[value]?)
    ok FAIL_CONFIGURE_UE

/-- `SaraN2::cereg` (lines 800-817): `ok` is the oracle for
`recv("+CEREG: %d,%d") && recv("OK")`; out-parameters not modelled. -/
def cereg (ok : Bool) : OpResult :=
  simple_cmd Cmd.CEREG_Q ok FAIL_GET_CEREG

/-- `SaraN2::cscon` (lines 826-843): `ok` is the oracle for
`recv("+CSCON: %d,%d") && recv("OK")`; out-parameters not modelled. -/
def cscon (ok : Bool) : OpResult :=
  simple_cmd Cmd.CSCON_Q ok FAIL_GET_CSCON

/-- Helper for `spec_modelled_op`: perform the send/receive exchanges in
order, stopping at the first failed receive; returns the `send` events
performed and whether every exchange was acknowledged. -/
def spec_modelled_steps : List (Cmd × Bool) → List Event × Bool
  | [] => ([], true)
  | (c, ok) :: rest =>
      if ok then
        (Event.send c :: (spec_modelled_steps rest).1, (spec_modelled_steps rest).2)
      else ([Event.send c], false)

/-- Modelled from the spec: `csq`, `set_t3412_timer`, `get_t3412_timer`,
`set_t3324_timer`, `get_t3324_timer`, `deactivate_radio`, `activate_radio`,
`gprs_attach`, `gprs_detach`, `auto_register_to_network` and
`deregister_from_network` are declared in `SaraN2Driver.h` (v0.2.0) but
their definitions are missing from the sources.  Per spec sections 4.2, 4.5
and 7, each is a complete self-contained critical section: acquire the
guard, flush, perform one or more send/receive exchanges (a timer `set`
re-submits the sibling timer and PSM state, hence possibly several
exchanges), release the guard on every exit path, and return the
operation-specific failure code on the first unacknowledged exchange. -/
def spec_modelled_op (steps : List (Cmd × Bool)) (failCode : Int) : OpResult :=
  let (evs, res) := spec_modelled_steps steps
  { ret := if res then SARAN2_OK else failCode,
    trace := [Event.lock, Event.flush] ++ evs ++ [Event.unlock] }

/-- One call of a public driver operation together with its arguments and
the oracle describing the modem's replies; `spec_modelled` covers the
header-declared operations whose definitions are missing from the sources
(see `spec_modelled_op`). -/
inductive OpCall where
  | at_ (ok : Bool) : OpCall
  | select_profile (profile : Nat) (ok : Bool) : OpCall
  | load_profile (profile : Nat) (ok : Bool) : OpCall
  | save_profile (profile : Nat) (ok : Bool) : OpCall
  | set_profile_validity (valid : Nat) (ok : Bool) : OpCall
  | set_coap_ip_port (ipv4 : String) (port : Nat) (ok : Bool) : OpCall
  | set_coap_uri (uri : String) (uri_length : Nat) (ok : Bool) : OpCall
  | pdu_header_add_uri_host (ok : Bool) : OpCall
  | pdu_header_add_uri_port (ok : Bool) : OpCall
  | pdu_header_add_uri_path (ok : Bool) : OpCall
  | pdu_header_add_uri_query (ok : Bool) : OpCall
  | pdu_header_remove_uri_host (ok : Bool) : OpCall
  | pdu_header_remove_uri_port (ok : Bool) : OpCall
  | pdu_header_remove_uri_path (ok : Bool) : OpCall
  | pdu_header_remove_uri_query (ok : Bool) : OpCall
  | select_coap_at_interface (ok : Bool) : OpCall
  | parse (timeout : Nat) (token : Option Int) (stream : List Nat)
      (response_code0 more_block0 : Int) : OpCall
  | coap_get (ok : Bool) (token : Option Int) (stream : List Nat)
      (response_code0 : Int) : OpCall
  | coap_delete (ok : Bool) (token : Option Int) (stream : List Nat)
      (response_code0 : Int) : OpCall
  | coap_put (send_data : String) (data_indentifier : Int) (ok : Bool)
      (token : Option Int) (stream : List Nat) (response_code0 : Int) : OpCall
  | coap_post (send_data : String) (data_indentifier : Int) (ok : Bool)
      (token : Option Int) (stream : List Nat) (response_code0 : Int) : OpCall
  | reboot_module (ack banner ready : Bool) : OpCall
  | enable_power_save_mode (ok : Bool) : OpCall
  | disable_power_save_mode (ok : Bool) : OpCall
  | query_power_save_mode (ok : Bool) : OpCall
  | configure_ue (function : Nat) (value : Nat) (ok : Bool) : OpCall
  | cereg (ok : Bool) : OpCall
  | cscon (ok : Bool) : OpCall
  | nuestats (stream : List Nat) : OpCall
  | spec_modelled (steps : List (Cmd × Bool)) (failCode : Int) : OpCall

/-- Dispatch an `OpCall` to the corresponding operation model, keeping its
return code and event trace. -/
def run : OpCall → OpResult
  | .at_ ok => at_op ok
  | .select_profile p ok => SaraN2.select_profile p ok
  | .load_profile p ok => SaraN2.load_profile p ok
  | .save_profile p ok => SaraN2.save_profile p ok
  | .set_profile_validity v ok => SaraN2.set_profile_validity v ok
  | .set_coap_ip_port ip port ok => SaraN2.set_coap_ip_port ip port ok
  | .set_coap_uri uri len ok => SaraN2.set_coap_uri uri len ok
  | .pdu_header_add_uri_host ok => SaraN2.pdu_header_add_uri_host ok
  | .pdu_header_add_uri_port ok => SaraN2.pdu_header_add_uri_port ok
  | .pdu_header_add_uri_path ok => SaraN2.pdu_header_add_uri_path ok
  | .pdu_header_add_uri_query ok => SaraN2.pdu_header_add_uri_query ok
  | .pdu_header_remove_uri_host ok => SaraN2.pdu_header_remove_uri_host ok
  | .pdu_header_remove_uri_port ok => SaraN2.pdu_header_remove_uri_port ok
  | .pdu_header_remove_uri_path ok => SaraN2.pdu_header_remove_uri_path ok
  | .pdu_header_remove_uri_query ok => SaraN2.pdu_header_remove_uri_query ok
  | .select_coap_at_interface ok => SaraN2.select_coap_at_interface ok
  | .parse t tok s rc0 mb0 =>
      let p := parse_coap_response t tok s rc0 mb0
      { ret := p.ret, trace := p.trace }
  | .coap_get ok tok s rc0 => SaraN2.coap_get ok tok s rc0
  | .coap_delete ok tok s rc0 => SaraN2.coap_delete ok tok s rc0
  | .coap_put d i ok tok s rc0 => SaraN2.coap_put d i ok tok s rc0
  | .coap_post d i ok tok s rc0 => SaraN2.coap_post d i ok tok s rc0
  | .reboot_module ack banner ready => SaraN2.reboot_module ack banner ready
  | .enable_power_save_mode ok => SaraN2.enable_power_save_mode ok
  | .disable_power_save_mode ok => SaraN2.disable_power_save_mode ok
  | .query_power_save_mode ok => SaraN2.query_power_save_mode ok
  | .configure_ue f v ok => SaraN2.configure_ue f v ok
  | .cereg ok => SaraN2.cereg ok
  | .cscon ok => SaraN2.cscon ok
  | .nuestats s =>
      let n := SaraN2.nuestats s
      { ret := n.ret, trace := n.trace }
  | .spec_modelled steps failCode => spec_modelled_op steps failCode

/-- The active parser timeout after processing a trace, starting from
baseline `t0`: the argument of the last `set_timeout` event, if any. -/
def final_timeout (t0 : Nat) : List Event → Nat
  | [] => t0
  | Event.set_timeout ms :: rest => final_timeout ms rest
  | _ :: rest => final_timeout t0 rest

/-- The active parser timeout at the moment the trace releases `_smutex`
(its first `unlock` event), starting from baseline `t0`. -/
def timeout_when_unlocked (t0 : Nat) (tr : List Event) : Nat :=
  final_timeout t0 (tr.takeWhile (fun e => e != Event.unlock))

/-- Thread-local mutex/send discipline automaton over a trace suffix, with
`held` the lock state at its start: `lock` requires the lock to be free and
takes it, `unlock` requires it to be held and frees it, and every `send`
must happen while the lock is held. -/
def threadOK : List Event → Bool → Bool
  | [], _ => true
  | Event.lock :: r, held => !held && threadOK r true
  | Event.unlock :: r, held => held && threadOK r false
  | Event.send _ :: r, held => held && threadOK r held
  | _ :: r, held => threadOK r held

/-- The lock state after processing a trace, starting from `held`. -/
def finalHeld : List Event → Bool → Bool
  | [], held => held
  | Event.lock :: r, _ => finalHeld r true
  | Event.unlock :: r, _ => finalHeld r false
  | _ :: r, held => finalHeld r held

/-- A complete operation trace is well-guarded: starting unlocked it obeys
the mutex discipline (never double-locks, never unlocks without holding,
sends only while holding) and ends with the lock released. -/
def opOK (tr : List Event) : Bool :=
  threadOK tr false && !(finalHeld tr false)

/-- The wire commands sent by a trace, in order. -/
def sends (tr : List Event) : List Cmd :=
  tr.filterMap (fun e => match e with | Event.send c => some c | _ => none)

/-- Byte list paired with consecutive write indices starting at `k`:
`idxFrom k [b0, b1, ...] = [(k, b0), (k+1, b1), ...]`. -/
def idxFrom : Nat → List Nat → List (Nat × Nat)
  | _, [] => []
  | k, b :: rest => (k, b) :: idxFrom (k + 1) rest

/-- The byte stream named by the telemetry round-trip claim:
`"-60,-45,23,120,80,12345,3,15,6300,200,-10\r\n"`. -/
def claimed_csv_stream : List Nat :=
  [45, 54, 48, 44, 45, 52, 53, 44, 50, 51, 44, 49, 50, 48, 44, 56, 48, 44, 49,
   50, 51, 52, 53, 44, 51, 44, 49, 53, 44, 54, 51, 48, 48, 44, 50, 48, 48, 44,
   45, 49, 48, 13, 10]

/-- The 11-field record the telemetry claim expects, as `(slot, value)`
stores into the `Nuestats_t` record. -/
def claimed_telemetry_record : List (Nat × Int) :=
  [(0, -60), (1, -45), (2, 23), (3, 120), (4, 80), (5, 12345), (6, 3),
   (7, 15), (8, 6300), (9, 200), (10, -10)]

/-- The same 11 values in the format the `nuestats` scanner actually
decodes: each value preceded by a comma (which starts field capture) and
terminated by CR LF (the CR parses and stores the field):
`",-60\r\n,-45\r\n,23\r\n,120\r\n,80\r\n,12345\r\n,3\r\n,15\r\n,6300\r\n,200\r\n,-10\r\n"`. -/
def per_line_stream : List Nat :=
  [44, 45, 54, 48, 13, 10, 44, 45, 52, 53, 13, 10, 44, 50, 51, 13, 10, 44, 49,
   50, 48, 13, 10, 44, 56, 48, 13, 10, 44, 49, 50, 51, 52, 53, 13, 10, 44, 51,
   13, 10, 44, 49, 53, 13, 10, 44, 54, 51, 48, 48, 13, 10, 44, 50, 48, 48, 13,
   10, 44, 45, 49, 48, 13, 10]

/-- A telemetry field of 17 bytes (a comma, then seventeen `'1'` digits,
then CR): the 17th captured byte goes to `buffer[16]`, past the end of the
16-byte field buffer. -/
def overflow_field_stream : List Nat :=
  44 :: List.replicate 17 49 ++ [13]

/-- Twelve comma-prefixed CR-terminated fields (`",1\r"` twelve times):
the twelfth store targets record slot 11, i.e. bytes 44..47 of the 44-byte
`Nuestats_t.data` record. -/
def overflow_record_stream : List Nat :=
  (List.replicate 12 [44, 49, 13]).flatten

/-- A concrete serialized interleaving of two `at()` calls: the first call's
whole trace, then the second call's whole trace. -/
def at_at_merge : List (Bool × Event) :=
  [(true, Event.lock), (true, Event.flush), (true, Event.send Cmd.AT),
   (true, Event.unlock), (false, Event.lock), (false, Event.flush),
   (false, Event.send Cmd.AT), (false, Event.unlock)]

/-- An interleaving of two event traces by two execution contexts, each
merged element tagged with the context it came from (`true` = first trace,
`false` = second). -/
inductive Merge : List Event → List Event → List (Bool × Event) → Prop where
  | nil : Merge [] [] []
  | left {e : Event} {ta tb : List Event} {m : List (Bool × Event)} :
      Merge ta tb m → Merge (e :: ta) tb ((true, e) :: m)
  | right {e : Event} {ta tb : List Event} {m : List (Bool × Event)} :
      Merge ta tb m → Merge ta (e :: tb) ((false, e) :: m)

/-- The guarantee of the `rtos::Mutex _smutex` runtime over a tagged
interleaving, with `o` the current owner (`none` = free): a `lock` step can
only happen while the mutex is free (otherwise the thread would still be
blocked) and transfers ownership to the locking thread, and an `unlock`
step is only performed by the current owner. -/
def lockConsistent : List (Bool × Event) → Option Bool → Bool
  | [], _ => true
  | (t, Event.lock) :: r, none => lockConsistent r (some t)
  | (_, Event.lock) :: _, some _ => false
  | (t, Event.unlock) :: r, some o => t == o && lockConsistent r none
  | (_, Event.unlock) :: _, none => false
  | (_, _) :: r, o => lockConsistent r o

/-- Every `send` in a tagged interleaving is performed by the thread that
currently owns the mutex (and never while it is free): the two threads'
command transmissions on the transport are separated by whole critical
sections and are never interleaved. -/
def sendsOwned : List (Bool × Event) → Option Bool → Bool
  | [], _ => true
  | (t, Event.lock) :: r, _ => sendsOwned r (some t)
  | (_, Event.unlock) :: r, _ => sendsOwned r none
  | (t, Event.send _) :: r, some o => t == o && sendsOwned r (some o)
  | (_, Event.send _) :: _, none => false
  | (_, _) :: r, o => sendsOwned r o

/-- Whether `o` marks mutex ownership by the first thread. -/
def ownA : Option Bool → Bool
  | some true => true
  | _ => false

/-- Whether `o` marks mutex ownership by the second thread. -/
def ownB : Option Bool → Bool
  | some false => true
  | _ => false

/-- Mutual-exclusion lemma: if both threads' traces obey the thread-local
discipline (`threadOK`: sends only while holding, no double lock, no
foreign unlock) then in every interleaving that respects the mutex
semantics, every `send` belongs to the current mutex owner. -/
theorem merge_sendsOwned {ta tb : List Event} {m : List (Bool × Event)}
    (hm : Merge ta tb m) :
    ∀ o : Option Bool, threadOK ta (ownA o) = true →
      threadOK tb (ownB o) = true →
      lockConsistent m o = true → sendsOwned m o = true := by
  induction hm with
  | nil => intro o _ _ _; rfl
  | @left e ta tb m _ ih =>
      intro o ha hb hc
      cases e with
      | lock =>
          cases o with
          | none =>
              simp only [lockConsistent] at hc
              simp only [threadOK, ownA, Bool.not_false, Bool.true_and] at ha
              simp only [sendsOwned]
              exact ih (some true) (by simpa [ownA] using ha)
                (by simpa [ownB] using hb) hc
          | some t => simp [lockConsistent] at hc
      | unlock =>
          cases o with
          | none => simp [threadOK, ownA] at ha
          | some t =>
              cases t with
              | false => simp [threadOK, ownA] at ha
              | true =>
                  simp only [lockConsistent, Bool.and_eq_true, beq_iff_eq] at hc
                  simp only [threadOK, ownA, Bool.true_and] at ha
                  simp only [sendsOwned]
                  exact ih none (by simpa [ownA] using ha)
                    (by simpa [ownB] using hb) hc.2
      | send c =>
          cases o with
          | none => simp [threadOK, ownA] at ha
          | some t =>
              cases t with
              | false => simp [threadOK, ownA] at ha
              | true =>
                  simp only [lockConsistent] at hc
                  simp only [threadOK, ownA, Bool.true_and] at ha
                  simp only [sendsOwned, beq_self_eq_true, Bool.true_and]
                  exact ih (some true) (by simpa [ownA] using ha) hb hc
      | flush =>
          simp only [lockConsistent] at hc
          simp only [threadOK] at ha
          simp only [sendsOwned]
          exact ih o ha hb hc
      | set_timeout ms =>
          simp only [lockConsistent] at hc
          simp only [threadOK] at ha
          simp only [sendsOwned]
          exact ih o ha hb hc
  | @right e ta tb m _ ih =>
      intro o ha hb hc
      cases e with
      | lock =>
          cases o with
          | none =>
              simp only [lockConsistent] at hc
              simp only [threadOK, ownB, Bool.not_false, Bool.true_and] at hb
              simp only [sendsOwned]
              exact ih (some false) (by simpa [ownA] using ha)
                (by simpa [ownB] using hb) hc
          | some t => simp [lockConsistent] at hc
      | unlock =>
          cases o with
          | none => simp [threadOK, ownB] at hb
          | some t =>
              cases t with
              | true => simp [threadOK, ownB] at hb
              | false =>
                  simp only [lockConsistent, Bool.and_eq_true, beq_iff_eq] at hc
                  simp only [threadOK, ownB, Bool.true_and] at hb
                  simp only [sendsOwned]
                  exact ih none (by simpa [ownA] using ha)
                    (by simpa [ownB] using hb) hc.2
      | send c =>
          cases o with
          | none => simp [threadOK, ownB] at hb
          | some t =>
              cases t with
              | true => simp [threadOK, ownB] at hb
              | false =>
                  simp only [lockConsistent] at hc
                  simp only [threadOK, ownB, Bool.true_and] at hb
                  simp only [sendsOwned, beq_self_eq_true, Bool.true_and]
                  exact ih (some false) ha (by simpa [ownB] using hb) hc
      | flush =>
          simp only [lockConsistent] at hc
          simp only [threadOK] at hb
          simp only [sendsOwned]
          exact ih o ha hb hc
      | set_timeout ms =>
          simp only [lockConsistent] at hc
          simp only [threadOK] at hb
          simp only [sendsOwned]
          exact ih o ha hb hc

/-- The send events of a spec-modelled exchange list obey the discipline
while the lock is held, ending with the final `unlock`. -/
theorem threadOK_spec_steps (steps : List (Cmd × Bool)) :
    threadOK ((spec_modelled_steps steps).1 ++ [Event.unlock]) true = true := by
  induction steps with
  | nil => rfl
  | cons s rest ih =>
      obtain ⟨c, ok⟩ := s
      cases ok with
      | true => simpa [spec_modelled_steps, threadOK] using ih
      | false => simp [spec_modelled_steps, threadOK]

/-- After the send events of a spec-modelled exchange list plus the final
`unlock`, the lock is released. -/
theorem finalHeld_spec_steps (steps : List (Cmd × Bool)) :
    finalHeld ((spec_modelled_steps steps).1 ++ [Event.unlock]) true = false := by
  induction steps with
  | nil => rfl
  | cons s rest ih =>
      obtain ⟨c, ok⟩ := s
      cases ok with
      | true => simpa [spec_modelled_steps, finalHeld] using ih
      | false => simp [spec_modelled_steps, finalHeld]

/-- Every public operation's trace obeys the thread-local discipline:
it never double-locks, never unlocks without holding, and sends only
while holding the guard. -/
theorem run_threadOK (c : OpCall) : threadOK (run c).trace false = true := by
  cases c with
  | at_ ok => rfl
  | select_profile p ok =>
      show threadOK (SaraN2.select_profile p ok).trace false = true
      unfold SaraN2.select_profile
      split
      · rfl
      · rfl
  | load_profile p ok =>
      show threadOK (SaraN2.load_profile p ok).trace false = true
      unfold SaraN2.load_profile
      split
      · rfl
      · rfl
  | save_profile p ok =>
      show threadOK (SaraN2.save_profile p ok).trace false = true
      unfold SaraN2.save_profile
      split
      · rfl
      · rfl
  | set_profile_validity v ok =>
      show threadOK (SaraN2.set_profile_validity v ok).trace false = true
      unfold SaraN2.set_profile_validity
      split
      · rfl
      · rfl
  | set_coap_ip_port ip port ok => rfl
  | set_coap_uri uri len ok =>
      show threadOK (SaraN2.set_coap_uri uri len ok).trace false = true
      unfold SaraN2.set_coap_uri
      split
      · rfl
      · rfl
  | pdu_header_add_uri_host ok => rfl
  | pdu_header_add_uri_port ok => rfl
  | pdu_header_add_uri_path ok => rfl
  | pdu_header_add_uri_query ok => rfl
  | pdu_header_remove_uri_host ok => rfl
  | pdu_header_remove_uri_port ok => rfl
  | pdu_header_remove_uri_path ok => rfl
  | pdu_header_remove_uri_query ok => rfl
  | select_coap_at_interface ok => rfl
  | parse t tok s rc0 mb0 => cases tok <;> rfl
  | coap_get ok tok s rc0 => cases ok <;> cases tok <;> rfl
  | coap_delete ok tok s rc0 => cases ok <;> cases tok <;> rfl
  | coap_put d i ok tok s rc0 => cases ok <;> cases tok <;> rfl
  | coap_post d i ok tok s rc0 => cases ok <;> cases tok <;> rfl
  | reboot_module ack banner ready =>
      cases ack <;> cases banner <;> cases ready <;> rfl
  | enable_power_save_mode ok => rfl
  | disable_power_save_mode ok => rfl
  | query_power_save_mode ok => rfl
  | configure_ue f v ok => rfl
  | cereg ok => rfl
  | cscon ok => rfl
  | nuestats s => rfl
  | spec_modelled steps failCode =>
      show threadOK (spec_modelled_op steps failCode).trace false = true
      simpa [spec_modelled_op, threadOK] using threadOK_spec_steps steps

/-- Every public operation's trace ends with the guard released. -/
theorem run_finalHeld (c : OpCall) : finalHeld (run c).trace false = false := by
  cases c with
  | at_ ok => rfl
  | select_profile p ok =>
      show finalHeld (SaraN2.select_profile p ok).trace false = false
      unfold SaraN2.select_profile
      split
      · rfl
      · rfl
  | load_profile p ok =>
      show finalHeld (SaraN2.load_profile p ok).trace false = false
      unfold SaraN2.load_profile
      split
      · rfl
      · rfl
  | save_profile p ok =>
      show finalHeld (SaraN2.save_profile p ok).trace false = false
      unfold SaraN2.save_profile
      split
      · rfl
      · rfl
  | set_profile_validity v ok =>
      show finalHeld (SaraN2.set_profile_validity v ok).trace false = false
      unfold SaraN2.set_profile_validity
      split
      · rfl
      · rfl
  | set_coap_ip_port ip port ok => rfl
  | set_coap_uri uri len ok =>
      show finalHeld (SaraN2.set_coap_uri uri len ok).trace false = false
      unfold SaraN2.set_coap_uri
      split
      · rfl
      · rfl
  | pdu_header_add_uri_host ok => rfl
  | pdu_header_add_uri_port ok => rfl
  | pdu_header_add_uri_path ok => rfl
  | pdu_header_add_uri_query ok => rfl
  | pdu_header_remove_uri_host ok => rfl
  | pdu_header_remove_uri_port ok => rfl
  | pdu_header_remove_uri_path ok => rfl
  | pdu_header_remove_uri_query ok => rfl
  | select_coap_at_interface ok => rfl
  | parse t tok s rc0 mb0 => cases tok <;> rfl
  | coap_get ok tok s rc0 => cases ok <;> cases tok <;> rfl
  | coap_delete ok tok s rc0 => cases ok <;> cases tok <;> rfl
  | coap_put d i ok tok s rc0 => cases ok <;> cases tok <;> rfl
  | coap_post d i ok tok s rc0 => cases ok <;> cases tok <;> rfl
  | reboot_module ack banner ready =>
      cases ack <;> cases banner <;> cases ready <;> rfl
  | enable_power_save_mode ok => rfl
  | disable_power_save_mode ok => rfl
  | query_power_save_mode ok => rfl
  | configure_ue f v ok => rfl
  | cereg ok => rfl
  | cscon ok => rfl
  | nuestats s => rfl
  | spec_modelled steps failCode =>
      show finalHeld (spec_modelled_op steps failCode).trace false = false
      simpa [spec_modelled_op, finalHeld] using finalHeld_spec_steps steps

/-- One scanner step on an opening quote byte (capture inactive). -/
theorem coap_scan_cons_quote_open (fuel i bi : Nat) (mb : Int)
    (w : List (Nat × Nat)) (mblk : Int) (rest : List Nat) :
    coap_scan (fuel + 1) i ⟨bi, -1, mb, w, mblk⟩ (34 :: rest) =
      coap_scan fuel (i + 1) ⟨0, (i : Int) + 1, mb, w, mblk⟩ rest := by
  simp [coap_scan]

/-- One scanner step on a closing quote byte (capture active or finished). -/
theorem coap_scan_cons_quote_close (fuel i bi : Nat) (cb mb : Int)
    (w : List (Nat × Nat)) (mblk : Int) (rest : List Nat) (h : ¬ cb = -1) :
    coap_scan (fuel + 1) i ⟨bi, cb, mb, w, mblk⟩ (34 :: rest) =
      coap_scan fuel (i + 1) ⟨bi, -2, (i : Int) + 2, w, mblk⟩ rest := by
  simp [coap_scan, h]

/-- One scanner step on a non-quote byte at the active capture position. -/
theorem coap_scan_cons_capture_step (fuel i bi : Nat) (mb : Int)
    (w : List (Nat × Nat)) (mblk : Int) (b : Nat) (rest : List Nat)
    (hb : ¬ b = 34) (hm : ¬ mb = (i : Int)) :
    coap_scan (fuel + 1) i ⟨bi, (i : Int), mb, w, mblk⟩ (b :: rest) =
      coap_scan fuel (i + 1)
        ⟨bi + 1, (i : Int) + 1, mb, w ++ [(bi, b)], mblk⟩ rest := by
  simp [coap_scan, hb, hm]

/-- One scanner step on a non-quote byte that neither matches the capture
position nor the trailing-byte position. -/
theorem coap_scan_cons_skip_step (fuel i bi : Nat) (cb mb : Int)
    (w : List (Nat × Nat)) (mblk : Int) (b : Nat) (rest : List Nat)
    (hb : ¬ b = 34) (h : ¬ cb = (i : Int)) (hm : ¬ mb = (i : Int)) :
    coap_scan (fuel + 1) i ⟨bi, cb, mb, w, mblk⟩ (b :: rest) =
      coap_scan fuel (i + 1) ⟨bi, cb, mb, w, mblk⟩ rest := by
  simp [coap_scan, hb, h, hm]

/-- One scanner step on the trailing byte: it is stored into `more_block`
and the scan stops. -/
theorem coap_scan_cons_trailing_step (fuel i bi : Nat) (cb mb : Int)
    (w : List (Nat × Nat)) (mblk : Int) (b : Nat) (rest : List Nat)
    (hb : ¬ b = 34) (h : ¬ cb = (i : Int)) (hm : mb = (i : Int)) :
    coap_scan (fuel + 1) i ⟨bi, cb, mb, w, mblk⟩ (b :: rest) =
      ⟨bi, cb, mb, w, (b : Int)⟩ := by
  simp [coap_scan, hb, h, hm]

/-- Bytes before any quote leave the CoAP scanner state untouched: with
capture inactive (`capture_byte = -1`) and no closing quote seen
(`more_block_byte = -1`), a quote-free prefix is skipped. -/
theorem coap_scan_skip (pre : List Nat) :
    ∀ (fuel fuel2 i bi : Nat) (w : List (Nat × Nat)) (mblk : Int)
      (rest : List Nat),
      34 ∉ pre → fuel = pre.length + fuel2 →
      coap_scan fuel i ⟨bi, -1, -1, w, mblk⟩ (pre ++ rest) =
        coap_scan fuel2 (i + pre.length) ⟨bi, -1, -1, w, mblk⟩ rest := by
  induction pre with
  | nil =>
      intro fuel fuel2 i bi w mblk rest _ hf
      subst hf
      simp
  | cons b pre ih =>
      intro fuel fuel2 i bi w mblk rest h34 hf
      have hb : ¬ b = 34 := fun h => h34 (by simp [h])
      have h34' : 34 ∉ pre := fun h => h34 (List.mem_cons_of_mem _ h)
      have hf' : fuel = (pre.length + fuel2) + 1 := by
        simp only [List.length_cons] at hf
        omega
      subst hf'
      rw [List.cons_append]
      rw [coap_scan_cons_skip_step (pre.length + fuel2) i bi (-1) (-1) w mblk b
            (pre ++ rest) hb (by omega) (by omega)]
      rw [ih (pre.length + fuel2) fuel2 (i + 1) bi w mblk rest h34' rfl]
      congr 1
      omega

/-- Capture phase of the CoAP scanner: with capture active at the current
position and no closing quote seen, a quote-free payload is copied byte by
byte to consecutive `recv_data` indices starting at `buffer_index`. -/
theorem coap_scan_capture (p : List Nat) :
    ∀ (fuel fuel2 i bi : Nat) (w : List (Nat × Nat)) (mblk : Int)
      (rest : List Nat),
      34 ∉ p → fuel = p.length + fuel2 →
      coap_scan fuel i ⟨bi, (i : Int), -1, w, mblk⟩ (p ++ rest) =
        coap_scan fuel2 (i + p.length)
          ⟨bi + p.length, (i : Int) + p.length, -1, w ++ idxFrom bi p, mblk⟩
          rest := by
  induction p with
  | nil =>
      intro fuel fuel2 i bi w mblk rest _ hf
      subst hf
      simp [idxFrom]
  | cons b p ih =>
      intro fuel fuel2 i bi w mblk rest h34 hf
      have hb : ¬ b = 34 := fun h => h34 (by simp [h])
      have h34' : 34 ∉ p := fun h => h34 (List.mem_cons_of_mem _ h)
      have hf' : fuel = (p.length + fuel2) + 1 := by
        simp only [List.length_cons] at hf
        omega
      subst hf'
      rw [List.cons_append]
      rw [coap_scan_cons_capture_step (p.length + fuel2) i bi (-1) w mblk b
            (p ++ rest) hb (by omega)]
      have hcast : (i : Int) + 1 = ((i + 1 : Nat) : Int) := by push_cast; omega
      rw [hcast]
      rw [ih (p.length + fuel2) fuel2 (i + 1) (bi + 1) (w ++ [(bi, b)]) mblk
            rest h34' rfl]
      congr 1
      · omega
      · simp only [CoapScan.mk.injEq, idxFrom, List.length_cons]
        repeat' apply And.intro
        all_goals first
          | rfl
          | omega
          | (push_cast; omega)
          | simp [List.append_assoc]

/-- Closing phase of the CoAP scanner: with capture active at the current
position, the closing quote records the trailing-byte position two bytes
ahead, the next byte (the separator) is skipped, and the byte after it is
captured into `more_block`, ending the scan. -/
theorem coap_scan_close (fuel i bi : Nat) (w : List (Nat × Nat)) (mblk : Int)
    (d : Nat) (hd : ¬ d = 34) :
    coap_scan (fuel + 3) i ⟨bi, (i : Int), -1, w, mblk⟩ [34, 44, d] =
      ⟨bi, -2, (i : Int) + 2, w, (d : Int)⟩ := by
  rw [show fuel + 3 = (fuel + 2) + 1 from rfl]
  rw [coap_scan_cons_quote_close (fuel + 2) i bi ((i : Int)) (-1) w mblk [44, d]
        (by omega)]
  rw [show fuel + 2 = (fuel + 1) + 1 from rfl]
  rw [coap_scan_cons_skip_step (fuel + 1) (i + 1) bi (-2) ((i : Int) + 2) w mblk
        44 [d] (by omega) (by omega) (by push_cast; omega)]
  rw [coap_scan_cons_trailing_step fuel (i + 1 + 1) bi (-2) ((i : Int) + 2) w
        mblk d [] hd (by omega) (by push_cast; omega)]






/-- C1 counterexample.  On the single-line CSV input named by the claim,
`nuestats` stores exactly one record field, not eleven: only CR triggers a
parse-and-store, a comma merely restarts field capture (nothing before the
first comma is ever captured, and each comma resets `buffer_index` without
clearing the buffer), so the lone CR stores the single value
`atoi("-10" over the residue "05" of earlier fields) = -1005` into slot 0. -/
theorem nuestats_single_line_csv_stores_one_field :
    (nuestats claimed_csv_stream).scan.dataWrites = [(0, -1005)] ∧
    ¬ (nuestats claimed_csv_stream).scan.dataWrites = claimed_telemetry_record := by
  constructor
  · decide
  · decide

/-- C1 amended.  With each of the eleven values preceded by a comma and
terminated by CR LF — the shape of the actual `AT+NUESTATS` reply, one
`<label>,<value>` pair per line — the `nuestats` scanner stores exactly the
eleven claimed signed-integer values into record slots 0..10 in order. -/
theorem nuestats_per_line_record_decodes :
    (nuestats per_line_stream).scan.dataWrites = claimed_telemetry_record := by
  decide

/-- C3.  `nuestats` violates the restore-before-release discipline: on every
call (whatever the byte stream), at the moment its trace releases `_smutex`
the active parser timeout is still the lowered 100 ms, and the 500 ms
baseline is only restored after the unlock. -/
theorem nuestats_unlocks_before_restoring_timeout (stream : List Nat) :
    timeout_when_unlocked 500 (nuestats stream).trace = 100 ∧
    final_timeout 500 (nuestats stream).trace = 500 := by
  constructor
  · rfl
  · rfl

/-- C8.  If the `+UCOAPCD` status token is not received, `parse_coap_response`
returns `FAIL_PARSE_RESPONSE` and performs no write at all into the caller's
`recv_data` buffer, for every subsequent byte stream. -/
theorem parse_coap_no_token_no_writes (t : Nat) (stream : List Nat)
    (response_code0 more_block0 : Int) :
    (parse_coap_response t none stream response_code0 more_block0).ret =
        FAIL_PARSE_RESPONSE ∧
    (parse_coap_response t none stream response_code0 more_block0).writes = [] := by
  constructor
  · rfl
  · rfl

/-- C9.  `reboot_module` returns `SARAN2_OK` exactly when the `REBOOTING`
acknowledgement, the `u-blox` banner and the final `OK` are all received in
order, and `FAIL_REBOOT` in every other case; and on every outcome the
active parser timeout after return equals the 500 ms pre-call baseline. -/
theorem reboot_module_outcomes_and_timeout (ack banner ready : Bool) :
    ((reboot_module ack banner ready).ret = SARAN2_OK ↔
        ack = true ∧ banner = true ∧ ready = true) ∧
    ((reboot_module ack banner ready).ret = SARAN2_OK ∨
        (reboot_module ack banner ready).ret = FAIL_REBOOT) ∧
    final_timeout 500 (reboot_module ack banner ready).trace = 500 := by
  cases ack <;> cases banner <;> cases ready <;> exact (by decide)

/-- C5 counterexample.  `configure_ue` does not reject the out-of-range
function index 7 (the `config_functions` table has entries 0..6): the call
acquires the guard, performs the out-of-bounds table lookup (`none` in the
model, an out-of-bounds array read in C++), sends the command and reports
success — no validation error is ever returned. -/
theorem configure_ue_out_of_range_not_rejected :
    (configure_ue 7 0 true).ret = SARAN2_OK ∧
    (configure_ue 7 0 true).trace =
      [Event.lock, Event.flush,
       Event.send (Cmd.NCONFIG none (config_values[0]?)), Event.unlock] := by
  constructor
  · rfl
  · rfl

/-- C5 amended.  `configure_ue` performs no boundary validation at all: for
every function and value index it locks, flushes, sends `AT+NCONFIG` built
by indexing `config_functions[function]` and `config_values[value]`
directly with the caller-supplied indices, and returns only `SARAN2_OK` or
`FAIL_CONFIGURE_UE`; the lookups are in bounds only when `function < 7` and
`value < 2`, so any other caller input reaches the tables (and the wire)
unchecked. -/
theorem configure_ue_no_boundary_validation (function : Nat) (value : Nat)
    (ok : Bool) :
    (configure_ue function value ok).trace =
      [Event.lock, Event.flush,
       Event.send (Cmd.NCONFIG config_functions[function]? config_values[value]?),
       Event.unlock] ∧
    (configure_ue function value ok).ret =
      (if ok then SARAN2_OK else FAIL_CONFIGURE_UE) ∧
    ((config_functions[function]?).isSome ↔ function < 7) ∧
    ((config_values[value]?).isSome ↔ value < 2) := by
  refine ⟨rfl, rfl, ?_, ?_⟩
  · rw [Option.isSome_iff_ne_none, ne_eq, List.getElem?_eq_none_iff]
    show ¬ 7 ≤ function ↔ function < 7
    omega
  · rw [Option.isSome_iff_ne_none, ne_eq, List.getElem?_eq_none_iff]
    show ¬ 2 ≤ value ↔ value < 2
    omega

/-- C6.  The `nuestats` scanner writes past both supplied capacities: a
17-byte field makes it store the 17th captured byte at field-buffer index
16 (past `char buffer[16]`), and twelve CR-terminated fields make it store
a value into record slot 11, i.e. bytes 44..47, past the 44-byte
`Nuestats_t` record. -/
theorem nuestats_scan_writes_past_capacity :
    (16, 49) ∈ (nuestats overflow_field_stream).scan.bufWrites ∧
    (11, (1 : Int)) ∈ (nuestats overflow_record_stream).scan.dataWrites := by
  constructor
  · decide
  · decide

/-- C2 counterexample.  With the claim's format — the trailing digit
directly after the closing quote (`<status><CR><LF>"a"3`) — the payload is
scanned but the trailing value is never captured: the scanner looks for it
a fixed 2 bytes after the closing quote, so `more_block` keeps its initial
value `-1` instead of the digit `'3'` (byte 51). -/
theorem parse_coap_adjacent_digit_not_captured :
    (parse_coap_response 10000 (some 205) [13, 10, 34, 97, 34, 51] 0 (-1)).writes
        = [(0, 97)] ∧
    (parse_coap_response 10000 (some 205) [13, 10, 34, 97, 34, 51] 0 (-1)).more_block
        = -1 ∧
    ¬ (parse_coap_response 10000 (some 205) [13, 10, 34, 97, 34, 51] 0 (-1)).more_block
        = 51 := by
  refine ⟨by decide, by decide, by decide⟩

/-- C2 amended.  For a CoAP reply in the format the scanner actually
consumes — `<status><CR><LF>"<payload>",<trailing-digit>`, with one
separator byte between the closing quote and the trailing digit, so the
digit sits the fixed 2-byte offset after the quote — `parse_coap_response`
succeeds, writes exactly the bytes strictly between the two quotes into
`recv_data[0..len-1]` and captures the trailing byte into `more_block`,
for every quote-free payload of length 0, 1, or the maximum supported 512. -/
theorem parse_coap_roundtrip_with_separator (p : List Nat) (d : Nat)
    (t : Nat) (rc response_code0 more_block0 : Int)
    (hp : 34 ∉ p) (hd : ¬ d = 34)
    (hlen : p.length = 0 ∨ p.length = 1 ∨ p.length = 512) :
    (parse_coap_response t (some rc) (13 :: 10 :: 34 :: (p ++ [34, 44, d]))
        response_code0 more_block0).ret = SARAN2_OK ∧
    (parse_coap_response t (some rc) (13 :: 10 :: 34 :: (p ++ [34, 44, d]))
        response_code0 more_block0).writes = idxFrom 0 p ∧
    (parse_coap_response t (some rc) (13 :: 10 :: 34 :: (p ++ [34, 44, d]))
        response_code0 more_block0).more_block = (d : Int) := by
  have hle : p.length ≤ 514 := by rcases hlen with h | h | h <;> omega
  have hscan :
      coap_scan 520 0 ⟨0, -1, -1, [], more_block0⟩
          ([13, 10] ++ (34 :: (p ++ [34, 44, d]))) =
        ⟨0 + p.length, -2, ((3 + p.length : Nat) : Int) + 2,
         [] ++ idxFrom 0 p, (d : Int)⟩ := by
    rw [coap_scan_skip [13, 10] 520 518 0 0 [] more_block0
          (34 :: (p ++ [34, 44, d])) (by decide) (by decide)]
    rw [show 0 + [13, 10].length = 2 from by decide]
    rw [show (518 : Nat) = 517 + 1 from by decide]
    rw [coap_scan_cons_quote_open 517 2 0 (-1) [] more_block0 (p ++ [34, 44, d])]
    rw [show ((2 : Nat) : Int) + 1 = ((3 : Nat) : Int) from by decide]
    rw [show (2 : Nat) + 1 = 3 from by decide]
    rw [coap_scan_capture p 517 (517 - p.length) 3 0 [] more_block0 [34, 44, d]
          hp (by omega)]
    rw [show ((3 : Nat) : Int) + (p.length : Int) = ((3 + p.length : Nat) : Int)
          from by push_cast; ring]
    rw [show (517 - p.length) = (514 - p.length) + 3 from by omega]
    rw [coap_scan_close (514 - p.length) (3 + p.length) (0 + p.length)
          ([] ++ idxFrom 0 p) more_block0 d hd]
  refine ⟨rfl, ?_, ?_⟩
  · show (coap_scan 520 0 ⟨0, -1, -1, [], more_block0⟩
        ([13, 10] ++ (34 :: (p ++ [34, 44, d])))).writes = idxFrom 0 p
    rw [hscan]
    simp
  · show (coap_scan 520 0 ⟨0, -1, -1, [], more_block0⟩
        ([13, 10] ++ (34 :: (p ++ [34, 44, d])))).more_block = (d : Int)
    rw [hscan]

/-- C2 witness: the round-trip theorem at payload `"a"` (byte 97) and
trailing digit `'3'` (byte 51). -/
theorem parse_coap_roundtrip_with_separator_witness :
    (34 ∉ [97]) ∧
    (parse_coap_response 10000 (some 205)
        (13 :: 10 :: 34 :: ([97] ++ [34, 44, 51])) 0 (-1)).writes
      = idxFrom 0 [97] ∧
    (parse_coap_response 10000 (some 205)
        (13 :: 10 :: 34 :: ([97] ++ [34, 44, 51])) 0 (-1)).more_block
      = ((51 : Nat) : Int) :=
  ⟨by decide,
   (parse_coap_roundtrip_with_separator [97] 51 10000 205 0 (-1) (by decide)
      (by decide) (by decide)).2.1,
   (parse_coap_roundtrip_with_separator [97] 51 10000 205 0 (-1) (by decide)
      (by decide) (by decide)).2.2⟩

/-- C4.  The three profile operations validate the index before any I/O:
each succeeds exactly when the profile index is one of the four profile
slots (`p < profile_count`, i.e. `p ≤ NUMBER_OF_PROFILES`) and the modem
acknowledges; an out-of-range index yields `INVALID_PROFILE` with an empty
trace (no command sent, no lock taken), and an in-range index sends exactly
the one indexed command. -/
theorem profile_ops_validate_iff_in_range (p : Nat) (ok : Bool) :
    ((select_profile p ok).ret = SARAN2_OK ↔ p < profile_count ∧ ok = true) ∧
    ((load_profile p ok).ret = SARAN2_OK ↔ p < profile_count ∧ ok = true) ∧
    ((save_profile p ok).ret = SARAN2_OK ↔ p < profile_count ∧ ok = true) ∧
    (profile_count ≤ p →
      select_profile p ok = { ret := INVALID_PROFILE, trace := [] } ∧
      load_profile p ok = { ret := INVALID_PROFILE, trace := [] } ∧
      save_profile p ok = { ret := INVALID_PROFILE, trace := [] }) ∧
    (p < profile_count →
      sends (select_profile p ok).trace = [Cmd.UCOAP 3 p] ∧
      sends (load_profile p ok).trace = [Cmd.UCOAP 5 p] ∧
      sends (save_profile p ok).trace = [Cmd.UCOAP 6 p]) := by
  by_cases hp : NUMBER_OF_PROFILES < p
  · have hnlt : ¬ p < profile_count := by
      simp only [profile_count, NUMBER_OF_PROFILES] at *
      omega
    simp [select_profile, load_profile, save_profile, hp, hnlt,
          INVALID_PROFILE, SARAN2_OK]
  · have hlt : p < profile_count := by
      simp only [profile_count, NUMBER_OF_PROFILES] at *
      omega
    have hnge : ¬ profile_count ≤ p := by omega
    cases ok with
    | true =>
        simp [select_profile, load_profile, save_profile, simple_cmd, sends,
              hp, hlt, hnge, SARAN2_OK]
    | false =>
        simp [select_profile, load_profile, save_profile, simple_cmd, sends,
              hp, hlt, hnge, SARAN2_OK, FAIL_SELECT_PROFILE,
              FAIL_LOAD_PROFILE, FAIL_SAVE_PROFILE]

/-- C4 witness: the validation theorem applied at the out-of-range index 7
and the in-range index 2. -/
theorem profile_ops_validate_iff_in_range_witness :
    (select_profile 7 true).ret = INVALID_PROFILE ∧
    (select_profile 2 true).ret = SARAN2_OK := by
  constructor
  · have h := (profile_ops_validate_iff_in_range 7 true).2.2.2.1 (by decide)
    rw [h.1]
  · exact (profile_ops_validate_iff_in_range 2 true).1.mpr ⟨by decide, rfl⟩

/-- C7.  Every public operation, for every argument and every modem reply,
produces a well-guarded trace: the link mutex is acquired at most once, is
never released without being held, and is released again before the
operation returns, on every exit path (success, failure, and the
validation-error early returns, which never touch the guard at all). -/
theorem public_ops_release_guard_on_every_path (c : OpCall) :
    opOK (run c).trace = true := by
  unfold opOK
  rw [run_threadOK c, run_finalHeld c]
  rfl

/-- C10.  Mutual exclusion of command bytes: whatever two public operations
two execution contexts invoke concurrently, in every interleaving of their
event traces that respects the mutex semantics of `_smutex`
(`lockConsistent`), every command transmission happens while its sender
owns the mutex — the two operations' command bytes are never interleaved
on the transport, and the second sender proceeds only after the first's
whole critical section (including any scanner pass) has completed. -/
theorem concurrent_ops_commands_not_interleaved (c1 c2 : OpCall)
    (m : List (Bool × Event))
    (hm : Merge (run c1).trace (run c2).trace m)
    (hc : lockConsistent m none = true) :
    sendsOwned m none = true :=
  merge_sendsOwned hm none (run_threadOK c1) (run_threadOK c2) hc


/-- C10 witness: the mutual-exclusion theorem applied to two concrete
`at()` calls and the serialized interleaving `at_at_merge`. -/
theorem concurrent_ops_commands_not_interleaved_witness :
    Merge (run (OpCall.at_ true)).trace (run (OpCall.at_ true)).trace
        at_at_merge ∧
    lockConsistent at_at_merge none = true ∧
    sendsOwned at_at_merge none = true := by
  have hm : Merge (run (OpCall.at_ true)).trace (run (OpCall.at_ true)).trace
      at_at_merge :=
    Merge.left (Merge.left (Merge.left (Merge.left
      (Merge.right (Merge.right (Merge.right (Merge.right Merge.nil)))))))
  exact ⟨hm, by decide,
    concurrent_ops_commands_not_interleaved (OpCall.at_ true) (OpCall.at_ true)
      at_at_merge hm (by decide)⟩

end SaraN2
